import Mathlib

/-!
Verification of the SPECTACLE camera-calibration core: a shallow embedding of
the radiometric calibration pipeline (spectacle/calibrate.py), the camera
metadata model (spectacle/metadata.py) and the ISO-normalisation lookup-table
generation (calibration/iso_normalisation.py), together with theorems checking
the specification's claims about them.

Arrays are embedded pointwise over the rationals; numpy's element-wise binary
operators act pointwise on values, and their shape semantics (broadcasting) is
embedded separately at the level of 2-D shapes.  Modules of the package that
are referenced but whose source is not part of this snapshot (spectacle.flat,
spectacle.iso, spectacle.bias_readnoise, spectacle.dark, spectacle.gain) are
modelled from the specification; each such definition is marked.
-/

set_option autoImplicit false

/-! ## Calibration pipeline, pointwise arithmetic (spectacle/calibrate.py) -/

/-- Pointwise arithmetic of the bias-correction stage: line 35 of
spectacle/calibrate.py computes data_corrected = data - bias. -/
def correct_bias (bias data : ℚ) : ℚ :=
  data - bias

/-- Pointwise arithmetic of the dark-current-correction stage: lines 49-50 of
spectacle/calibrate.py compute dark_total = dark_current * exposure_time and
data_corrected = data - dark_total. -/
def correct_dark_current (dark_current exposure_time data : ℚ) : ℚ :=
  data - dark_current * exposure_time

/-! ## Calibration map store load policy (spec section 4.2)

The loader modules spectacle.bias_readnoise, spectacle.dark and spectacle.gain
are not part of this source snapshot; only their caller
spectacle/calibrate.py is.  The load/fallback policy is therefore modelled
from the specification. -/

/-- The calibration kinds whose load policy the specification describes. -/
inductive CalKind where
  | bias
  | gain
  | darkCurrent
deriving DecidableEq, Repr

/-- Camera metadata scalars available as fallbacks for the store. -/
structure CamMeta where
  name : String
  biasValue : ℚ
  gainValue : ℚ

/-- A store of precomputed calibration map files: for each kind, either a
stored map (embedded pointwise as a rational) or no file. -/
structure CalStore where
  file : CalKind → Option ℚ

/-- The error raised when no artifact and no admissible fallback exist; it
names the missing kind and the camera. -/
structure CalibrationNotFoundError where
  kind : CalKind
  camera : String
deriving DecidableEq, Repr

/-- Modelled from the spec: load(camera, kind) returns the requested
calibration map, trying (a) the precomputed map file, then (b) for bias and
gain a value derived from camera metadata, and otherwise (c) fails with
CalibrationNotFoundError naming the missing kind and camera (spec section
4.2; the loader modules are not under this snapshot's source). -/
def load (cam : CamMeta) (store : CalStore) (kind : CalKind) :
    Except CalibrationNotFoundError ℚ :=
  match store.file kind with
  | some v => .ok v
  | none =>
    match kind with
    | .bias => .ok cam.biasValue
    | .gain => .ok cam.gainValue
    | .darkCurrent => .error ⟨.darkCurrent, cam.name⟩

/-! ## ISO-normalisation fitter precondition (calibration/iso_normalisation.py) -/

/-- The module-level assert on line 44 of calibration/iso_normalisation.py:
isos.min() == camera.settings.ISO_min.  The list of ISO speeds found in the
data is embedded as a list of naturals; numpy's min over a nonempty array is
List.min?. -/
def iso_minimum_check (isos : List ℕ) (iso_min : ℕ) : Bool :=
  decide (isos.min? = some iso_min)

/-! ## Shape semantics of the flat-field and gain stages -/

/-- numpy broadcasting of one dimension: sizes must agree or one must be 1. -/
def broadcast_dim (a b : ℕ) : Option ℕ :=
  if a = b then some a
  else if a = 1 then some b
  else if b = 1 then some a
  else none

/-- numpy broadcasting of two 2-D shapes, as used by the element-wise * and /
operators in correct_flatfield and convert_to_photoelectrons. -/
def broadcast_shapes (s t : ℕ × ℕ) : Option (ℕ × ℕ) :=
  match broadcast_dim s.1 t.1, broadcast_dim s.2 t.2 with
  | some x, some y => some (x, y)
  | _, _ => none

/-- Modelled from the spec: clip_data (spectacle.flat, not under this
snapshot's source) excludes the outer border pixels of the data; the border
width on each side is the parameter b (spec sections 4.3 and 4.5). -/
def clip_shape (b : ℕ) (s : ℕ × ℕ) : ℕ × ℕ :=
  (s.1 - 2 * b, s.2 - 2 * b)

/-- The error the specification assigns to array/map shape disagreement. -/
structure ShapeMismatchError where
  dataShape : ℕ × ℕ
  mapShape : ℕ × ℕ
deriving DecidableEq, Repr

/-- Shape semantics of correct_flatfield (spectacle/calibrate.py lines
87-104): clip the data, then multiply element-wise by the correction map;
the multiplication fails when the shapes do not broadcast. -/
def correct_flatfield_shape (b : ℕ) (dataShape mapShape : ℕ × ℕ) :
    Except ShapeMismatchError (ℕ × ℕ) :=
  match broadcast_shapes (clip_shape b dataShape) mapShape with
  | some s => .ok s
  | none => .error ⟨clip_shape b dataShape, mapShape⟩

/-- Shape semantics of convert_to_photoelectrons (spectacle/calibrate.py
lines 73-84): divide element-wise by the gain map; the division fails when
the shapes do not broadcast. -/
def convert_to_photoelectrons_shape (dataShape gainShape : ℕ × ℕ) :
    Except ShapeMismatchError (ℕ × ℕ) :=
  match broadcast_shapes dataShape gainShape with
  | some s => .ok s
  | none => .error ⟨dataShape, gainShape⟩

/-- Whether a shape-level stage application failed. -/
def shape_stage_fails (r : Except ShapeMismatchError (ℕ × ℕ)) : Bool :=
  match r with
  | .ok _ => false
  | .error _ => true

/-! ## Camera metadata model (spectacle/metadata.py) -/

/-- Field names of the Device namedtuple (metadata.py line 7). -/
def device_fields : List String :=
  ["manufacturer", "name"]

/-- Field names of the Image namedtuple (metadata.py line 8). -/
def image_fields : List String :=
  ["shape", "raw_extension", "bias", "bayer_pattern", "bit_depth"]

/-- Field names of the Settings namedtuple (metadata.py line 9). -/
def settings_fields : List String :=
  ["ISO_min", "ISO_max", "exposure_min", "exposure_max"]

/-- Python namedtuple construction T(**d) succeeds exactly when the keys of d
are exactly the declared fields: a missing required field and an unexpected
keyword argument both raise TypeError. -/
def namedtuple_ok (fields keys : List String) : Bool :=
  fields.all (fun f => keys.contains f) && keys.all (fun k => fields.contains k)

/-- Camera.__init__ (metadata.py lines 11-16) builds the Device, Image and
Settings namedtuples from the three records; construction succeeds exactly
when all three succeed.  Records are embedded by their key lists (Python
dict keys are what decide namedtuple success). -/
def camera_init (device_keys image_keys settings_keys : List String) : Bool :=
  namedtuple_ok device_fields device_keys &&
  namedtuple_ok image_fields image_keys &&
  namedtuple_ok settings_fields settings_keys

/-- Camera.read_from_file (metadata.py lines 39-43): the three top-level
values of the metadata dictionary are unpacked positionally, in insertion
order, ignoring the keys, and passed to Camera.__init__ in that order; a
file with a number of top-level groups other than three fails the unpacking.
A metadata file is embedded as the ordered list of (top-level key, record
key list) pairs. -/
def camera_read_from_file (file : List (String × List String)) : Bool :=
  match file with
  | [(_, d), (_, i), (_, s)] => camera_init d i s
  | _ => false

/-- The metadata file layout the constructor expects: device group first,
image group second, settings group third, each holding exactly its
namedtuple's fields. -/
def standard_metadata_file : List (String × List String) :=
  [("device", device_fields), ("image", image_fields), ("settings", settings_fields)]

/-- Bayer map generation (metadata.py lines 28-34): the four strided slice
assignments bayer_map[0::2, 0::2] = pattern[0][0] and so on give pixel (r, c)
the value selected by the parities of r and c. -/
def generate_bayer_map (p00 p01 p10 p11 : ℕ) (r c : ℕ) : ℕ :=
  if r % 2 = 0 then
    if c % 2 = 0 then p00 else p01
  else
    if c % 2 = 0 then p10 else p11

/-- The pixels of an n × m array, as a finite set of index pairs. -/
def array_pixels (n m : ℕ) : Finset (ℕ × ℕ) :=
  Finset.range n ×ˢ Finset.range m

/-- How many pixels of the n × m Bayer map hold the value v. -/
def bayer_count (n m p00 p01 p10 p11 v : ℕ) : ℕ :=
  ((array_pixels n m).filter
    (fun rc => generate_bayer_map p00 p01 p10 p11 rc.1 rc.2 = v)).card

/-- How many naturals below n have parity i. -/
def parity_count (n i : ℕ) : ℕ :=
  ((Finset.range n).filter (fun r => r % 2 = i)).card

/-! ## ISO lookup table generation (calibration/iso_normalisation.py) -/

/-- Lines 68-69 of calibration/iso_normalisation.py: iso_range =
np.arange(0, ISO_max+1, 1) and lookup_table = stack([iso_range,
model(iso_range)]).T — one (ISO, factor) row per integer ISO speed from 0 to
ISO_max inclusive.  The fitted model is a function from ISO speed to
normalisation factor. -/
def iso_lookup_table (model : ℕ → ℚ) (iso_max : ℕ) : List (ℕ × ℚ) :=
  (List.range (iso_max + 1)).map (fun i => (i, model i))

/-! ## ISO normalisation application (spectacle/calibrate.py lines 55-70)

The bodies of normalise_single_iso and normalise_multiple_iso live in
spectacle.iso, which is not part of this snapshot; they are modelled from the
specification.  The branching between them is from the source. -/

/-- The ISO argument of normalise_iso: Python's isinstance(iso_values,
(int, float)) distinguishes a single scalar number from an array of
per-frame values. -/
inductive ISOValues where
  | scalar (x : ℕ)
  | perFrame (xs : List ℕ)

/-- Modelled from the spec: normalise_single_iso (spectacle.iso, not under
this snapshot's source) divides the whole data array by the single
looked-up normalisation factor (spec section 4.5).  Data is a stack of
frames of rationals. -/
def normalise_single_iso (data : List (List ℚ)) (iso : ℕ) (lut : ℕ → ℚ) :
    List (List ℚ) :=
  data.map (fun frame => frame.map (fun d => d / lut iso))

/-- Modelled from the spec: normalise_multiple_iso (spectacle.iso, not under
this snapshot's source) divides each frame by the factor looked up for that
frame's own ISO speed (spec section 4.5). -/
def normalise_multiple_iso (data : List (List ℚ)) (isos : List ℕ)
    (lut : ℕ → ℚ) : List (List ℚ) :=
  List.zipWith (fun frame i => frame.map (fun d => d / lut i)) data isos

/-- normalise_iso (spectacle/calibrate.py lines 55-70): branch on whether the
ISO value is a scalar number or an array of per-frame values. -/
def normalise_iso (lut : ℕ → ℚ) (data : List (List ℚ)) (vals : ISOValues) :
    List (List ℚ) :=
  match vals with
  | .scalar x => normalise_single_iso data x lut
  | .perFrame xs => normalise_multiple_iso data xs lut

/-! ## Allocation semantics of the pipeline stages

numpy's binary operators -, * and / as used in spectacle/calibrate.py always
allocate a fresh result array and leave their operands untouched (no stage
uses an in-place operator).  A store of allocated arrays is embedded as a
bump allocator over cell values (arrays pointwise as a single rational). -/

/-- A heap of allocated numpy arrays: ids below next are allocated. -/
structure NpStore where
  next : ℕ
  mem : ℕ → Option ℚ

/-- Only ids below next are allocated. -/
def np_wf (s : NpStore) : Prop :=
  ∀ i, s.next ≤ i → s.mem i = none

/-- Allocate a fresh array holding v; returns the new store and the new id. -/
def np_alloc (s : NpStore) (v : ℚ) : NpStore × ℕ :=
  (⟨s.next + 1, fun i => if i = s.next then some v else s.mem i⟩, s.next)

/-- Read an allocated array's value. -/
def np_read (s : NpStore) (a : ℕ) : ℚ :=
  (s.mem a).getD 0

/-- Bias stage on the heap: data - bias allocates the result. -/
def correct_bias_st (bias : ℚ) (s : NpStore) (d : ℕ) : NpStore × ℕ :=
  np_alloc s (np_read s d - bias)

/-- Dark-current stage on the heap: data - dark_current * exposure_time. -/
def correct_dark_current_st (dark_current exposure_time : ℚ) (s : NpStore)
    (d : ℕ) : NpStore × ℕ :=
  np_alloc s (np_read s d - dark_current * exposure_time)

/-- Flat-field stage on the heap: clipping is a view (no copy, no write);
the multiplication by the correction map allocates the result. -/
def correct_flatfield_st (correction : ℚ) (s : NpStore) (d : ℕ) :
    NpStore × ℕ :=
  np_alloc s (np_read s d * correction)

/-- ISO-normalisation stage on the heap: division by the looked-up factor
allocates the result. -/
def normalise_iso_st (factor : ℚ) (s : NpStore) (d : ℕ) : NpStore × ℕ :=
  np_alloc s (np_read s d / factor)

/-- Gain-conversion stage on the heap: data / gain_map allocates the
result. -/
def convert_to_photoelectrons_st (gain : ℚ) (s : NpStore) (d : ℕ) :
    NpStore × ℕ :=
  np_alloc s (np_read s d / gain)

/-! ## Helper lemmas -/

theorem np_alloc_spec (s : NpStore) (v : ℚ) (d : ℕ) (hd : d < s.next) :
    (np_alloc s v).2 ≠ d ∧
    (∀ a, a < s.next → ((np_alloc s v).1).mem a = s.mem a) ∧
    ((np_alloc s v).1).mem (np_alloc s v).2 = some v := by
  refine ⟨by simp [np_alloc]; omega, fun a ha => ?_, by simp [np_alloc]⟩
  simp only [np_alloc]
  rw [if_neg (by omega)]

theorem broadcast_dim_eq_none_iff (a b : ℕ) :
    broadcast_dim a b = none ↔ ¬(a = b ∨ a = 1 ∨ b = 1) := by
  unfold broadcast_dim
  split_ifs <;> simp_all

theorem broadcast_shapes_eq_none_iff (s t : ℕ × ℕ) :
    broadcast_shapes s t = none ↔
      broadcast_dim s.1 t.1 = none ∨ broadcast_dim s.2 t.2 = none := by
  unfold broadcast_shapes
  rcases broadcast_dim s.1 t.1 <;> rcases broadcast_dim s.2 t.2 <;> simp

theorem parity_count_zero (n : ℕ) : parity_count n 0 = (n + 1) / 2 := by
  induction n with
  | zero => simp [parity_count]
  | succ k ih =>
    unfold parity_count at ih ⊢
    rw [Finset.range_succ, Finset.filter_insert]
    split_ifs with h
    · rw [Finset.card_insert_of_not_mem (by simp)]
      omega
    · omega

theorem parity_count_one (n : ℕ) : parity_count n 1 = n / 2 := by
  induction n with
  | zero => simp [parity_count]
  | succ k ih =>
    unfold parity_count at ih ⊢
    rw [Finset.range_succ, Finset.filter_insert]
    split_ifs with h
    · rw [Finset.card_insert_of_not_mem (by simp)]
      omega
    · omega

theorem generate_bayer_map_eq_p00_iff (p00 p01 p10 p11 : ℕ)
    (h01 : p00 ≠ p01) (h02 : p00 ≠ p10) (h03 : p00 ≠ p11) :
    ∀ r c, generate_bayer_map p00 p01 p10 p11 r c = p00 ↔ r % 2 = 0 ∧ c % 2 = 0 := by
  intro r c
  unfold generate_bayer_map
  split_ifs <;> constructor <;> intro h <;> omega

theorem generate_bayer_map_eq_p01_iff (p00 p01 p10 p11 : ℕ)
    (h01 : p00 ≠ p01) (h12 : p01 ≠ p10) (h13 : p01 ≠ p11) :
    ∀ r c, generate_bayer_map p00 p01 p10 p11 r c = p01 ↔ r % 2 = 0 ∧ c % 2 = 1 := by
  intro r c
  unfold generate_bayer_map
  split_ifs <;> constructor <;> intro h <;> omega

theorem generate_bayer_map_eq_p10_iff (p00 p01 p10 p11 : ℕ)
    (h02 : p00 ≠ p10) (h12 : p01 ≠ p10) (h23 : p10 ≠ p11) :
    ∀ r c, generate_bayer_map p00 p01 p10 p11 r c = p10 ↔ r % 2 = 1 ∧ c % 2 = 0 := by
  intro r c
  unfold generate_bayer_map
  split_ifs <;> constructor <;> intro h <;> omega

theorem generate_bayer_map_eq_p11_iff (p00 p01 p10 p11 : ℕ)
    (h03 : p00 ≠ p11) (h13 : p01 ≠ p11) (h23 : p10 ≠ p11) :
    ∀ r c, generate_bayer_map p00 p01 p10 p11 r c = p11 ↔ r % 2 = 1 ∧ c % 2 = 1 := by
  intro r c
  unfold generate_bayer_map
  split_ifs <;> constructor <;> intro h <;> omega

theorem ceil_floor_bound (a c r s : ℕ) (_hr : r ≤ 1) (_hs : s ≤ 1) :
    (a + r) * (c + s) ≤ a * c + ((2 * a + r) * (2 * c + s) - 4 * (a * c)) := by
  have h4 : 4 * (a * c) ≤ (2 * a + r) * (2 * c + s) := by nlinarith
  rw [← Nat.add_sub_assoc h4]
  apply Nat.le_sub_of_add_le
  nlinarith

theorem pair_bound (n m x1 y1 x2 y2 : ℕ)
    (hx1 : n / 2 ≤ x1 ∧ x1 ≤ (n + 1) / 2) (hy1 : m / 2 ≤ y1 ∧ y1 ≤ (m + 1) / 2)
    (hx2 : n / 2 ≤ x2 ∧ x2 ≤ (n + 1) / 2) (hy2 : m / 2 ≤ y2 ∧ y2 ≤ (m + 1) / 2) :
    x1 * y1 ≤ x2 * y2 + (n * m - 4 * ((n / 2) * (m / 2))) := by
  calc x1 * y1 ≤ (n / 2 + n % 2) * (m / 2 + m % 2) :=
        Nat.mul_le_mul (by omega) (by omega)
    _ ≤ n / 2 * (m / 2) +
          ((2 * (n / 2) + n % 2) * (2 * (m / 2) + m % 2) - 4 * (n / 2 * (m / 2))) :=
        ceil_floor_bound (n / 2) (m / 2) (n % 2) (m % 2) (by omega) (by omega)
    _ = n / 2 * (m / 2) + (n * m - 4 * (n / 2 * (m / 2))) := by
        rw [show 2 * (n / 2) + n % 2 = n by omega, show 2 * (m / 2) + m % 2 = m by omega]
    _ ≤ x2 * y2 + (n * m - 4 * (n / 2 * (m / 2))) :=
        Nat.add_le_add_right (Nat.mul_le_mul hx2.1 hy2.1) _

/-! ## Claim theorems -/

/-- C1 counterexample: bias correction followed by dark-current correction
with bias 528, dark-current rate 0.001 ADU/s and exposure time 2 s does not
map the input value 600 to 69.998 (it yields 71.998: the spec example's
subtraction is off by 2). -/
theorem bias_then_dark_600_ne_spec_value :
    correct_dark_current (1/1000) 2 (correct_bias 528 600) ≠ 69998/1000 := by
  norm_num [correct_bias, correct_dark_current]

/-- C1 (amended): bias correction followed by dark-current correction with
bias 528, dark-current rate 0.001 ADU/s and exposure time 2 s maps the
input value 600 to 71.998 = 600 - 528 - 0.002. -/
theorem bias_then_dark_600_eq_71998 :
    correct_dark_current (1/1000) 2 (correct_bias 528 600) = 71998/1000 := by
  norm_num [correct_bias, correct_dark_current]

/-- C2: the load policy tries the precomputed map file first; with no file,
bias and gain fall back to the metadata-derived value without error, and
dark current fails with CalibrationNotFoundError naming the missing kind
and camera. -/
theorem load_policy (cam : CamMeta) (store : CalStore) :
    (∀ k v, store.file k = some v → load cam store k = .ok v) ∧
    (store.file .bias = none → load cam store .bias = .ok cam.biasValue) ∧
    (store.file .gain = none → load cam store .gain = .ok cam.gainValue) ∧
    (store.file .darkCurrent = none →
      load cam store .darkCurrent = .error ⟨.darkCurrent, cam.name⟩) := by
  refine ⟨fun k v h => ?_, fun h => ?_, fun h => ?_, fun h => ?_⟩ <;>
    simp [load, h]

/-- C2 witness: with an empty store, loading the dark-current map for a
concrete camera fails naming dark current and the camera, while loading the
bias map returns the metadata bias value. -/
theorem load_policy_witness :
    load ⟨"iPhone SE", 528, 2⟩ ⟨fun _ => none⟩ .darkCurrent =
        .error ⟨.darkCurrent, "iPhone SE"⟩ ∧
    load ⟨"iPhone SE", 528, 2⟩ ⟨fun _ => none⟩ .bias = .ok 528 :=
  ⟨(load_policy ⟨"iPhone SE", 528, 2⟩ ⟨fun _ => none⟩).2.2.2 rfl,
   (load_policy ⟨"iPhone SE", 528, 2⟩ ⟨fun _ => none⟩).2.1 rfl⟩

/-- C3 counterexample: the data [10, 23] contains a measurement exactly at
the camera's minimum ISO speed 23, yet the module-level assert fails,
because the data minimum 10 differs from ISO_min. -/
theorem iso_min_present_yet_check_fails :
    23 ∈ [10, 23] ∧ iso_minimum_check [10, 23] 23 = false := by
  decide

/-- C3 (amended): the fitter's precondition check passes exactly when the
minimum of the observed ISO speeds equals the camera's declared minimum ISO
speed, i.e. a measurement at ISO_min is present and no measurement lies
below it; in particular it fails whenever no measurement at ISO_min is
present. -/
theorem iso_minimum_check_iff (isos : List ℕ) (m : ℕ) :
    iso_minimum_check isos m = true ↔ m ∈ isos ∧ ∀ x ∈ isos, m ≤ x := by
  simp [iso_minimum_check, List.min?_eq_some_iff']

/-- C3 witness: data [23, 46] has a measurement at ISO_min = 23 and nothing
below it, so the check passes. -/
theorem iso_minimum_check_iff_witness : iso_minimum_check [23, 46] 23 = true :=
  (iso_minimum_check_iff [23, 46] 23).mpr ⟨by decide, by decide⟩

/-- C5 counterexample: a device record holding all required fields plus one
extra key makes Camera construction fail, although every required field is
present in all three records. -/
theorem camera_init_extra_key_fails :
    (∀ f ∈ device_fields, f ∈ ["manufacturer", "name", "serial"]) ∧
    camera_init ["manufacturer", "name", "serial"] image_fields
      settings_fields = false := by
  decide

/-- C5 (amended): Camera construction succeeds exactly when each of the
three records carries exactly the required fields of its namedtuple: it
fails whenever a required field is absent, and also whenever an unexpected
extra field is present. -/
theorem camera_init_iff (dk ik sk : List String) :
    camera_init dk ik sk = true ↔
      ((∀ f ∈ device_fields, f ∈ dk) ∧ (∀ k ∈ dk, k ∈ device_fields)) ∧
      ((∀ f ∈ image_fields, f ∈ ik) ∧ (∀ k ∈ ik, k ∈ image_fields)) ∧
      ((∀ f ∈ settings_fields, f ∈ sk) ∧ (∀ k ∈ sk, k ∈ settings_fields)) := by
  simp [camera_init, namedtuple_ok, List.all_eq_true, and_assoc]

/-- C5 witness: records carrying exactly the required fields construct
successfully. -/
theorem camera_init_iff_witness :
    camera_init device_fields image_fields settings_fields = true :=
  (camera_init_iff device_fields image_fields settings_fields).mpr
    ⟨⟨by decide, by decide⟩, ⟨by decide, by decide⟩, by decide, by decide⟩

/-- C4 counterexample: data of spatial shape (1, 100) differs from the gain
map's shape (100, 100), yet gain conversion succeeds (numpy broadcasts the
unit dimension) instead of failing with ShapeMismatchError. -/
theorem gain_shape_differs_yet_ok :
    ((1, 100) : ℕ × ℕ) ≠ (100, 100) ∧
    convert_to_photoelectrons_shape (1, 100) (100, 100) = .ok (100, 100) :=
  ⟨by decide, rfl⟩

/-- C4 (amended): flat-field correction and gain conversion fail with
ShapeMismatchError exactly when the (clipped) data shape and the map shape
are not numpy-broadcast-compatible; equal shapes always succeed, and a
flat-field map of shape (100, 100) applied to data of shape (50, 50) fails
for every clipping border width. -/
theorem shape_mismatch_policy :
    (∀ s : ℕ × ℕ, convert_to_photoelectrons_shape s s = .ok s) ∧
    (∀ ds ms : ℕ × ℕ,
      shape_stage_fails (convert_to_photoelectrons_shape ds ms) = true ↔
        ¬((ds.1 = ms.1 ∨ ds.1 = 1 ∨ ms.1 = 1) ∧
          (ds.2 = ms.2 ∨ ds.2 = 1 ∨ ms.2 = 1))) ∧
    (∀ b : ℕ, ∀ ds ms : ℕ × ℕ,
      shape_stage_fails (correct_flatfield_shape b ds ms) = true ↔
        ¬(((clip_shape b ds).1 = ms.1 ∨ (clip_shape b ds).1 = 1 ∨ ms.1 = 1) ∧
          ((clip_shape b ds).2 = ms.2 ∨ (clip_shape b ds).2 = 1 ∨ ms.2 = 1))) ∧
    (∀ b : ℕ,
      shape_stage_fails (correct_flatfield_shape b (50, 50) (100, 100)) = true) := by
  have hfail : ∀ r : Except ShapeMismatchError (ℕ × ℕ),
      shape_stage_fails r = true ↔ ∃ e, r = .error e := by
    intro r
    rcases r <;> simp [shape_stage_fails]
  have hconv : ∀ ds ms : ℕ × ℕ,
      shape_stage_fails (convert_to_photoelectrons_shape ds ms) = true ↔
        broadcast_shapes ds ms = none := by
    intro ds ms
    unfold convert_to_photoelectrons_shape
    rcases h : broadcast_shapes ds ms <;> simp [shape_stage_fails]
  have hflat : ∀ b : ℕ, ∀ ds ms : ℕ × ℕ,
      shape_stage_fails (correct_flatfield_shape b ds ms) = true ↔
        broadcast_shapes (clip_shape b ds) ms = none := by
    intro b ds ms
    unfold correct_flatfield_shape
    rcases h : broadcast_shapes (clip_shape b ds) ms <;> simp [shape_stage_fails]
  have hnone : ∀ s t : ℕ × ℕ,
      broadcast_shapes s t = none ↔
        ¬((s.1 = t.1 ∨ s.1 = 1 ∨ t.1 = 1) ∧ (s.2 = t.2 ∨ s.2 = 1 ∨ t.2 = 1)) := by
    intro s t
    rw [broadcast_shapes_eq_none_iff, broadcast_dim_eq_none_iff,
      broadcast_dim_eq_none_iff]
    tauto
  refine ⟨fun s => ?_, fun ds ms => ?_, fun b ds ms => ?_, fun b => ?_⟩
  · unfold convert_to_photoelectrons_shape broadcast_shapes broadcast_dim
    simp
  · rw [hconv, hnone]
  · rw [hflat, hnone]
  · rw [hflat, hnone]
    simp only [clip_shape]
    omega

/-- C4 witness of the amended claim: data of shape (50, 50) clipped with a
border of 2 pixels against a (100, 100) flat-field map fails, and a
(100, 100) map applied to matching (100, 100) data succeeds. -/
theorem shape_mismatch_policy_witness :
    shape_stage_fails (correct_flatfield_shape 2 (50, 50) (100, 100)) = true ∧
    convert_to_photoelectrons_shape (100, 100) (100, 100) = .ok (100, 100) :=
  ⟨shape_mismatch_policy.2.2.2 2, shape_mismatch_policy.1 (100, 100)⟩

/-- C7: the generated ISO normalisation lookup table has one entry for every
integer ISO speed from 0 to the camera's maximum inclusive, the entry at
index i is the model value at ISO speed i, and, since the chosen model
enforces a normalisation factor of 1 at the camera's minimum ISO speed, the
entry at ISO_min is exactly 1. -/
theorem iso_lookup_table_spec (model : ℕ → ℚ) (iso_min iso_max : ℕ)
    (hmodel : model iso_min = 1) (hle : iso_min ≤ iso_max) :
    (iso_lookup_table model iso_max).length = iso_max + 1 ∧
    (∀ i, i ≤ iso_max →
      (iso_lookup_table model iso_max)[i]? = some (i, model i)) ∧
    (iso_lookup_table model iso_max)[iso_min]? = some (iso_min, 1) := by
  have hentry : ∀ i, i ≤ iso_max →
      (iso_lookup_table model iso_max)[i]? = some (i, model i) := by
    intro i hi
    unfold iso_lookup_table
    rw [List.getElem?_map, List.getElem?_range (by omega)]
    rfl
  refine ⟨by simp [iso_lookup_table], hentry, ?_⟩
  rw [hentry iso_min hle, hmodel]

/-- C7 witness: for a model that is constantly 1, minimum ISO 23 and maximum
ISO 25, the table has 26 entries and the entry at index 23 is (23, 1). -/
theorem iso_lookup_table_spec_witness :
    (iso_lookup_table (fun _ => (1 : ℚ)) 25).length = 25 + 1 ∧
    (iso_lookup_table (fun _ => (1 : ℚ)) 25)[23]? = some (23, 1) :=
  ⟨(iso_lookup_table_spec (fun _ => 1) 23 25 rfl (by decide)).1,
   (iso_lookup_table_spec (fun _ => 1) 23 25 rfl (by decide)).2.2⟩

/-- C8: normalise_iso applies the single-ISO normalisation (every frame
divided by the one looked-up factor) exactly on a scalar ISO value, and the
multiple-ISO normalisation (each frame divided by the factor looked up for
its own per-frame ISO speed) exactly on an array of per-frame ISO values. -/
theorem normalise_iso_branches (lut : ℕ → ℚ) (data : List (List ℚ)) :
    (∀ x, normalise_iso lut data (.scalar x) = normalise_single_iso data x lut ∧
      normalise_iso lut data (.scalar x) =
        data.map (fun frame => frame.map (fun d => d / lut x))) ∧
    (∀ xs, normalise_iso lut data (.perFrame xs) =
        normalise_multiple_iso data xs lut ∧
      normalise_iso lut data (.perFrame xs) =
        List.zipWith (fun frame i => frame.map (fun d => d / lut i)) data xs) :=
  ⟨fun _ => ⟨rfl, rfl⟩, fun _ => ⟨rfl, rfl⟩⟩

/-- C9: every pipeline stage leaves every already-allocated array unchanged
(in particular its input) and returns a freshly allocated array, distinct
from the input, holding the corrected values. -/
theorem pipeline_stages_no_mutation (s : NpStore) (d : ℕ)
    (bias dark_current exposure_time correction factor gain : ℚ)
    (hd : d < s.next) :
    ((correct_bias_st bias s d).2 ≠ d ∧
      (∀ a, a < s.next → (correct_bias_st bias s d).1.mem a = s.mem a) ∧
      (correct_bias_st bias s d).1.mem (correct_bias_st bias s d).2 =
        some (np_read s d - bias)) ∧
    ((correct_dark_current_st dark_current exposure_time s d).2 ≠ d ∧
      (∀ a, a < s.next →
        (correct_dark_current_st dark_current exposure_time s d).1.mem a = s.mem a) ∧
      (correct_dark_current_st dark_current exposure_time s d).1.mem
          (correct_dark_current_st dark_current exposure_time s d).2 =
        some (np_read s d - dark_current * exposure_time)) ∧
    ((correct_flatfield_st correction s d).2 ≠ d ∧
      (∀ a, a < s.next → (correct_flatfield_st correction s d).1.mem a = s.mem a) ∧
      (correct_flatfield_st correction s d).1.mem
          (correct_flatfield_st correction s d).2 =
        some (np_read s d * correction)) ∧
    ((normalise_iso_st factor s d).2 ≠ d ∧
      (∀ a, a < s.next → (normalise_iso_st factor s d).1.mem a = s.mem a) ∧
      (normalise_iso_st factor s d).1.mem (normalise_iso_st factor s d).2 =
        some (np_read s d / factor)) ∧
    ((convert_to_photoelectrons_st gain s d).2 ≠ d ∧
      (∀ a, a < s.next →
        (convert_to_photoelectrons_st gain s d).1.mem a = s.mem a) ∧
      (convert_to_photoelectrons_st gain s d).1.mem
          (convert_to_photoelectrons_st gain s d).2 =
        some (np_read s d / gain)) :=
  ⟨np_alloc_spec s _ d hd, np_alloc_spec s _ d hd, np_alloc_spec s _ d hd,
   np_alloc_spec s _ d hd, np_alloc_spec s _ d hd⟩

/-- C9 witness: on a one-array heap holding the value 600 at id 0, the bias
stage returns a fresh id distinct from 0, the input array still holds 600,
and the fresh array holds 600 - 528. -/
theorem pipeline_stages_no_mutation_witness :
    (correct_bias_st 528 ⟨1, fun _ => some 600⟩ 0).2 ≠ 0 ∧
    (correct_bias_st 528 ⟨1, fun _ => some 600⟩ 0).1.mem 0 = some 600 ∧
    (correct_bias_st 528 ⟨1, fun _ => some 600⟩ 0).1.mem
        (correct_bias_st 528 ⟨1, fun _ => some 600⟩ 0).2 =
      some (np_read ⟨1, fun _ => some 600⟩ 0 - 528) := by
  have h := (pipeline_stages_no_mutation ⟨1, fun _ => some 600⟩ 0
    528 1 2 1 1 1 (by decide)).1
  exact ⟨h.1, h.2.1 0 (by decide), h.2.2⟩

/-- C10: Camera.read_from_file assigns the three top-level groups of the
metadata dictionary purely by position in insertion order, never by key
name; the standard order constructs successfully, and every other ordering
of the three well-formed groups makes construction fail. -/
theorem read_from_file_positional :
    (∀ k1 k2 k3 d i s, camera_read_from_file [(k1, d), (k2, i), (k3, s)] =
      camera_init d i s) ∧
    camera_read_from_file standard_metadata_file = true ∧
    (∀ l, l.Perm standard_metadata_file → l ≠ standard_metadata_file →
      camera_read_from_file l = false) := by
  have hperm : ∀ a ∈ standard_metadata_file, ∀ b ∈ standard_metadata_file,
      ∀ c ∈ standard_metadata_file, [a, b, c] ≠ standard_metadata_file →
      camera_read_from_file [a, b, c] = false := by
    decide
  refine ⟨fun k1 k2 k3 d i s => rfl, by decide, fun l hp hne => ?_⟩
  have hlen : l.length = 3 := by
    rw [hp.length_eq]
    rfl
  match l, hlen with
  | [a, b, c], _ =>
    exact hperm a (hp.mem_iff.mp (by simp)) b (hp.mem_iff.mp (by simp))
      c (hp.mem_iff.mp (by simp)) hne

/-- C10 witness: a metadata file whose groups come in the order image,
device, settings fails to construct a Camera. -/
theorem read_from_file_positional_witness :
    camera_read_from_file
      [("image", image_fields), ("device", device_fields),
       ("settings", settings_fields)] = false :=
  read_from_file_positional.2.2 _ (by decide) (by decide)

/-- C6 counterexample: for the valid Bayer pattern (0, 1, 2, 3) with four
distinct channel indices and image shape (1, 1), the generated Bayer map
holds exactly 1 distinct value, not 4. -/
theorem generate_bayer_map_shape_1x1 :
    ((array_pixels 1 1).image
      (fun rc => generate_bayer_map 0 1 2 3 rc.1 rc.2)).card = 1 := by
  decide

/-- C6 (amended): the Bayer map tiles the 2-by-2 pattern by row/column
parity — pixel (r, c) holds the pattern entry at (r mod 2, c mod 2), so
every complete 2-by-2 tile holds each pattern value in exactly one
quadrant; for shapes with both dimensions at least 2 and four distinct
channel indices the map holds exactly 4 distinct values, the total count
of each value is the product of the row-parity and column-parity counts,
and any two per-value totals differ by at most n*m - 4*(n/2)*(m/2), the
number of cells outside complete 2-by-2 tiles. -/
theorem generate_bayer_map_spec (n m p00 p01 p10 p11 : ℕ)
    (hn : 2 ≤ n) (hm : 2 ≤ m)
    (h01 : p00 ≠ p01) (h02 : p00 ≠ p10) (h03 : p00 ≠ p11)
    (h12 : p01 ≠ p10) (h13 : p01 ≠ p11) (h23 : p10 ≠ p11) :
    (∀ r c, generate_bayer_map p00 p01 p10 p11 r c =
        generate_bayer_map p00 p01 p10 p11 (r % 2) (c % 2)) ∧
    (∀ i j, generate_bayer_map p00 p01 p10 p11 (2 * i) (2 * j) = p00 ∧
        generate_bayer_map p00 p01 p10 p11 (2 * i) (2 * j + 1) = p01 ∧
        generate_bayer_map p00 p01 p10 p11 (2 * i + 1) (2 * j) = p10 ∧
        generate_bayer_map p00 p01 p10 p11 (2 * i + 1) (2 * j + 1) = p11) ∧
    ((array_pixels n m).image
        (fun rc => generate_bayer_map p00 p01 p10 p11 rc.1 rc.2)).card = 4 ∧
    (bayer_count n m p00 p01 p10 p11 p00 = parity_count n 0 * parity_count m 0 ∧
     bayer_count n m p00 p01 p10 p11 p01 = parity_count n 0 * parity_count m 1 ∧
     bayer_count n m p00 p01 p10 p11 p10 = parity_count n 1 * parity_count m 0 ∧
     bayer_count n m p00 p01 p10 p11 p11 = parity_count n 1 * parity_count m 1) ∧
    (∀ v ∈ [p00, p01, p10, p11], ∀ w ∈ [p00, p01, p10, p11],
      bayer_count n m p00 p01 p10 p11 v ≤
        bayer_count n m p00 p01 p10 p11 w + (n * m - 4 * (n / 2 * (m / 2)))) := by
  have hcount00 : bayer_count n m p00 p01 p10 p11 p00 =
      parity_count n 0 * parity_count m 0 := by
    unfold bayer_count array_pixels parity_count
    rw [Finset.filter_congr (fun x _ =>
      generate_bayer_map_eq_p00_iff p00 p01 p10 p11 h01 h02 h03 x.1 x.2)]
    rw [Finset.filter_product (fun r : ℕ => r % 2 = 0) (fun c : ℕ => c % 2 = 0),
      Finset.card_product]
  have hcount01 : bayer_count n m p00 p01 p10 p11 p01 =
      parity_count n 0 * parity_count m 1 := by
    unfold bayer_count array_pixels parity_count
    rw [Finset.filter_congr (fun x _ =>
      generate_bayer_map_eq_p01_iff p00 p01 p10 p11 h01 h12 h13 x.1 x.2)]
    rw [Finset.filter_product (fun r : ℕ => r % 2 = 0) (fun c : ℕ => c % 2 = 1),
      Finset.card_product]
  have hcount10 : bayer_count n m p00 p01 p10 p11 p10 =
      parity_count n 1 * parity_count m 0 := by
    unfold bayer_count array_pixels parity_count
    rw [Finset.filter_congr (fun x _ =>
      generate_bayer_map_eq_p10_iff p00 p01 p10 p11 h02 h12 h23 x.1 x.2)]
    rw [Finset.filter_product (fun r : ℕ => r % 2 = 1) (fun c : ℕ => c % 2 = 0),
      Finset.card_product]
  have hcount11 : bayer_count n m p00 p01 p10 p11 p11 =
      parity_count n 1 * parity_count m 1 := by
    unfold bayer_count array_pixels parity_count
    rw [Finset.filter_congr (fun x _ =>
      generate_bayer_map_eq_p11_iff p00 p01 p10 p11 h03 h13 h23 x.1 x.2)]
    rw [Finset.filter_product (fun r : ℕ => r % 2 = 1) (fun c : ℕ => c % 2 = 1),
      Finset.card_product]
  refine ⟨?_, ?_, ?_, ⟨hcount00, hcount01, hcount10, hcount11⟩, ?_⟩
  · intro r c
    have hr : r % 2 = 0 ∨ r % 2 = 1 := by omega
    have hc : c % 2 = 0 ∨ c % 2 = 1 := by omega
    rcases hr with hr | hr <;> rcases hc with hc | hc <;>
      simp [generate_bayer_map, hr, hc]
  · intro i j
    have h1 : (2 * i) % 2 = 0 := by omega
    have h2 : (2 * i + 1) % 2 = 1 := by omega
    have h3 : (2 * j) % 2 = 0 := by omega
    have h4 : (2 * j + 1) % 2 = 1 := by omega
    refine ⟨?_, ?_, ?_, ?_⟩ <;> simp [generate_bayer_map, h1, h2, h3, h4]
  · have himg : (array_pixels n m).image
        (fun rc => generate_bayer_map p00 p01 p10 p11 rc.1 rc.2) =
        {p00, p01, p10, p11} := by
      ext v
      simp only [Finset.mem_image, Finset.mem_insert, Finset.mem_singleton,
        array_pixels, Finset.mem_product, Finset.mem_range]
      constructor
      · rintro ⟨⟨r, c⟩, ⟨hr, hc⟩, rfl⟩
        unfold generate_bayer_map
        split_ifs <;> tauto
      · rintro (rfl | rfl | rfl | rfl)
        · exact ⟨(0, 0), ⟨by omega, by omega⟩, by simp [generate_bayer_map]⟩
        · exact ⟨(0, 1), ⟨by omega, by omega⟩, by simp [generate_bayer_map]⟩
        · exact ⟨(1, 0), ⟨by omega, by omega⟩, by simp [generate_bayer_map]⟩
        · exact ⟨(1, 1), ⟨by omega, by omega⟩, by simp [generate_bayer_map]⟩
    rw [himg,
      Finset.card_insert_of_not_mem
        (by simp only [Finset.mem_insert, Finset.mem_singleton]; omega),
      Finset.card_insert_of_not_mem
        (by simp only [Finset.mem_insert, Finset.mem_singleton]; omega),
      Finset.card_insert_of_not_mem (by simp only [Finset.mem_singleton]; omega),
      Finset.card_singleton]
  · intro v hv w hw
    simp only [List.mem_cons, List.not_mem_nil, or_false] at hv hw
    rcases hv with rfl | rfl | rfl | rfl <;> rcases hw with rfl | rfl | rfl | rfl <;>
      simp only [hcount00, hcount01, hcount10, hcount11, parity_count_zero,
        parity_count_one] <;>
      exact pair_bound n m _ _ _ _ ⟨by omega, by omega⟩ ⟨by omega, by omega⟩
        ⟨by omega, by omega⟩ ⟨by omega, by omega⟩

/-- C6 witness: for shape (2, 3) and the distinct pattern (5, 1, 2, 3) the
generated map holds exactly 4 distinct values. -/
theorem generate_bayer_map_spec_witness :
    ((array_pixels 2 3).image
      (fun rc => generate_bayer_map 5 1 2 3 rc.1 rc.2)).card = 4 :=
  (generate_bayer_map_spec 2 3 5 1 2 3 (by decide) (by decide) (by decide)
    (by decide) (by decide) (by decide) (by decide) (by decide)).2.2.1
